import Mathlib

/-!
Verification of the location-aware post retrieval core of the sonet backend.

The development shallowly embeds the Go source:
* the Post data model (internal/models, geolocation fields per the geolocation
  document: City string, Latitude and Longitude float64, nullable in the schema);
* getPaginationParams (internal/api handlers);
* the naive geo query strategy SQLiteAdapter.FindNearbyPosts (bounding-box
  prefilter, haversine exact filter, in-memory pagination);
* the native strategy PostgresAdapter.FindNearbyPosts, whose body is a raw SQL
  string over PostGIS builtins; the store side is modelled from the spec;
* the search coordinator searchPosts (internal/api handlers).

Real arithmetic stands in for float64: trigonometric functions are the exact
real ones, so floating-point rounding is outside the model.  Machine ints are
embedded as Nat where the Go code only ever passes non-negative values
(limit and offset produced by getPaginationParams) and as Int where the raw
query values flow in.
-/

namespace Sonet

/-- Embedding of the Post model (internal/models plus the geolocation fields).
Only the fields the geo core reads are kept: identifier, author, content, city,
the nullable coordinate pair (latitude IS NOT NULL checks in SQL motivate
Option), and the creation timestamp (time.Time embedded as a Nat ordering
key).  Metadata, attachments and the update timestamp are never read by the
search paths and are omitted. -/
structure Post where
  id : String
  userId : String
  content : String
  city : String
  latitude : Option ℝ
  longitude : Option ℝ
  createdAt : ℕ

/-- Latitude value as the Go float64 field reads it (NULL scans as the zero
value 0; every candidate that reaches a distance computation has passed the
IS NOT NULL filter, so the default is never the value used). -/
def latVal (p : Post) : ℝ := p.latitude.getD 0

/-- Longitude value as the Go float64 field reads it. -/
def lngVal (p : Post) : ℝ := p.longitude.getD 0

/-- Embedding of the in-memory pagination of SQLiteAdapter.FindNearbyPosts
(part_002 lines 596 to 606): start := offset; end := offset+limit; if start is
at least the length the page is empty; otherwise end is clamped to the length
and the slice filtered[start:end] is returned.  A Go slice l[a:b] is
(l.take b).drop a. -/
def paginate {α : Type} (limit offset : ℕ) (l : List α) : List α :=
  if l.length ≤ offset then []
  else (l.take (min (offset + limit) l.length)).drop offset

/-- Embedding of getPaginationParams (part_005 lines 92 to 108).  Inputs are
the parsed limit and page query values (Go int; strconv.Atoi failures leave 0,
which the clamping turns into the defaults).  limit is clamped into [1,100],
page is floored at 1, and offset = (page-1)*limit. -/
def getPaginationParams (limitQ pageQ : Int) : ℕ × ℕ :=
  let limit₁ := if limitQ ≤ 0 then 20 else limitQ
  let limit₂ := if limit₁ > 100 then 100 else limit₁
  let page := if pageQ ≤ 0 then 1 else pageQ
  (limit₂.toNat, ((page - 1) * limit₂).toNat)

/-- Embedding of the SQL window LIMIT limit OFFSET offset: the rows at
positions offset to offset+limit-1 of the ordered result. -/
def sqlWindow {α : Type} (limit offset : ℕ) (l : List α) : List α :=
  (l.drop offset).take limit

/-- Substring test on character lists: true when the pattern occurs
contiguously.  This is the semantics of Go strings.Contains (the empty pattern
is contained in every string). -/
def hasSubstr : List Char → List Char → Bool
  | [], pat => pat.isEmpty
  | c :: rest, pat => pat.isPrefixOf (c :: rest) || hasSubstr rest pat

/-- Case-insensitive containment, the shape used in searchPosts:
strings.Contains(strings.ToLower(s), strings.ToLower(sub)).  Lowercasing is
the character-wise lowercase map over the string contents. -/
def strContainsCI (s sub : String) : Bool :=
  hasSubstr (s.data.map Char.toLower) (sub.data.map Char.toLower)

/-- The content predicate of the in-process post-filter loops in searchPosts
(part_005 lines 722 to 731 and 753 to 762). -/
def matchesQuery (q : String) (p : Post) : Bool :=
  strContainsCI p.content q

/-- Embedding of the in-process post-filter loops of searchPosts: the posts of
the page whose content contains the query case-insensitively, in page order
(the Go loop appends matches in traversal order, which is List.filter). -/
def filterByContent (q : String) (posts : List Post) : List Post :=
  posts.filter (fun p => matchesQuery q p)

/-- The latitude half-width of the bounding box (part_002 line 560):
latDelta := (radiusKm * 1.2) / 111.0. -/
noncomputable def latDelta (radiusKm : ℝ) : ℝ := radiusKm * 1.2 / 111

/-- The longitude half-width of the bounding box (part_002 line 561):
lngDelta := (radiusKm * 1.2) / (111.0 * cos(lat*pi/180.0)).  The division is
unconditional in the source; there is no branch for latitudes near the
poles. -/
noncomputable def lngDelta (lat radiusKm : ℝ) : ℝ :=
  radiusKm * 1.2 / (111 * Real.cos (lat * Real.pi / 180))

/-- Embedding of Go math.Atan2 on finite inputs (the only inputs the haversine
code produces): the quadrant-correcting arctangent. -/
noncomputable def atan2 (y x : ℝ) : ℝ :=
  if 0 < x then Real.arctan (y / x)
  else if x < 0 then
    (if 0 ≤ y then Real.arctan (y / x) + Real.pi else Real.arctan (y / x) - Real.pi)
  else if 0 < y then Real.pi / 2
  else if y < 0 then -(Real.pi / 2)
  else 0

/-- Embedding of the haversine distance computed inside the candidate loop of
SQLiteAdapter.FindNearbyPosts (part_002 lines 575 to 594), with
earthRadius = 6371 km:
  a = sin(dLat/2)^2 + cos(radLat1)*cos(radLat2)*sin(dLng/2)^2,
  c = 2*atan2(sqrt a, sqrt (1-a)),  distance = 6371*c. -/
noncomputable def haversineDistance (lat lng plat plng : ℝ) : ℝ :=
  let radLat1 := lat * Real.pi / 180
  let radLat2 := plat * Real.pi / 180
  let deltaLng := (plng - lng) * Real.pi / 180
  let deltaLat := (plat - lat) * Real.pi / 180
  let a := Real.sin (deltaLat / 2) * Real.sin (deltaLat / 2) +
    Real.cos radLat1 * Real.cos radLat2 *
      (Real.sin (deltaLng / 2) * Real.sin (deltaLng / 2))
  6371 * (2 * atan2 (Real.sqrt a) (Real.sqrt (1 - a)))

/-- The bounding-box candidate condition of the naive strategy (part_002 lines
564 to 566): both coordinates non-NULL, latitude BETWEEN lat-latDelta AND
lat+latDelta, longitude BETWEEN lng-lngDelta AND lng+lngDelta. -/
def inBoundingBox (lat lng radiusKm : ℝ) (p : Post) : Prop :=
  p.latitude.isSome = true ∧ p.longitude.isSome = true ∧
  lat - latDelta radiusKm ≤ latVal p ∧ latVal p ≤ lat + latDelta radiusKm ∧
  lng - lngDelta lat radiusKm ≤ lngVal p ∧ lngVal p ≤ lng + lngDelta lat radiusKm

/-- The exact-distance retention condition of the naive strategy (part_002
line 591): computed haversine distance at most radiusKm, boundary included. -/
def withinRadius (lat lng radiusKm : ℝ) (p : Post) : Prop :=
  haversineDistance lat lng (latVal p) (lngVal p) ≤ radiusKm

/-- Creation-time descending order relation, the ORDER BY created_at DESC of
the candidate fetch. -/
def createdAtGE (p q : Post) : Prop := q.createdAt ≤ p.createdAt

instance : DecidableRel createdAtGE := fun p q => Nat.decLe q.createdAt p.createdAt

instance : IsTotal Post createdAtGE := ⟨fun p q => Nat.le_total q.createdAt p.createdAt⟩

instance : IsTrans Post createdAtGE := ⟨fun _ _ _ h h2 => le_trans h2 h⟩

/-- Deterministic model of ORDER BY created_at DESC over the stored posts: a
stable sort by the creation timestamp, newest first. -/
def sortByCreatedAtDesc (l : List Post) : List Post :=
  List.insertionSort createdAtGE l

/-- Distance-ascending order relation from a query center, the ORDER BY
ST_DistanceSphere ... ASC of the native query. -/
def distanceLE (lat lng : ℝ) (p q : Post) : Prop :=
  haversineDistance lat lng (latVal p) (lngVal p) ≤
    haversineDistance lat lng (latVal q) (lngVal q)

noncomputable instance (lat lng : ℝ) : DecidableRel (distanceLE lat lng) :=
  fun _ _ => Real.decidableLE _ _

instance (lat lng : ℝ) : IsTotal Post (distanceLE lat lng) :=
  ⟨fun _ _ => le_total _ _⟩

instance (lat lng : ℝ) : IsTrans Post (distanceLE lat lng) :=
  ⟨fun _ _ _ h h2 => le_trans h h2⟩

noncomputable instance (lat lng radiusKm : ℝ) (p : Post) :
    Decidable (inBoundingBox lat lng radiusKm p) := by
  unfold inBoundingBox; infer_instance

noncomputable instance (lat lng radiusKm : ℝ) (p : Post) :
    Decidable (withinRadius lat lng radiusKm p) := by
  unfold withinRadius; infer_instance

/-- Step 2 of the naive strategy: the exact-distance filter over the candidate
list, in candidate order (the Go loop appends retained posts in order). -/
noncomputable def filterByDistance (lat lng radiusKm : ℝ) (l : List Post) : List Post :=
  l.filter (fun p => decide (withinRadius lat lng radiusKm p))

/-- Steps 1 and 2 of SQLiteAdapter.FindNearbyPosts: fetch the posts inside the
bounding box ordered by creation time descending, then retain those whose
haversine distance is at most the radius, preserving fetch order. -/
noncomputable def sqliteNearbyFiltered (db : List Post) (lat lng radiusKm : ℝ) : List Post :=
  filterByDistance lat lng radiusKm
    ((sortByCreatedAtDesc db).filter (fun p => decide (inBoundingBox lat lng radiusKm p)))

/-- Embedding of SQLiteAdapter.FindNearbyPosts (part_002 lines 554 to 607),
the naive geo query strategy over the stored posts db. -/
noncomputable def sqliteFindNearbyPosts (db : List Post) (lat lng radiusKm : ℝ)
    (limit offset : ℕ) : List Post :=
  paginate limit offset (sqliteNearbyFiltered db lat lng radiusKm)

/-- Embedding of SQLiteAdapter.ListPostsByCity (part_002 lines 542 to 551):
WHERE city = ? ORDER BY created_at DESC LIMIT ? OFFSET ?. -/
def sqliteListPostsByCity (db : List Post) (city : String) (limit offset : ℕ) : List Post :=
  sqlWindow limit offset
    ((sortByCreatedAtDesc db).filter (fun p => p.city = city))

/-- Embedding of SQLiteAdapter.SearchPosts (part_002 lines 526 to 539):
WHERE content LIKE the query wrapped in percent signs, ORDER BY created_at
DESC with the SQL window.  The default SQLite LIKE is case-insensitive on
ASCII, modelled with the same case-insensitive containment. -/
def sqliteSearchPostsText (db : List Post) (q : String) (limit offset : ℕ) : List Post :=
  sqlWindow limit offset
    ((sortByCreatedAtDesc db).filter (fun p => strContainsCI p.content q))

/-- Modelled from the spec: the body of PostgresAdapter.FindNearbyPosts
(part_003 lines 237 to 268) is a raw SQL string whose meaning lives in the
PostGIS builtins ST_DWithin and ST_DistanceSphere, which are not part of this
repository.  Spec section 4.3 describes the native strategy: the store keeps
the posts with a coordinate whose spherical distance from the center is at
most the radius, orders them ascending by that spherical distance, and applies
LIMIT/OFFSET itself.  Spherical distance is taken to be the haversine distance
of section 4.1, the same function the naive strategy uses. -/
noncomputable def postgresFindNearbyPosts (db : List Post) (lat lng radiusKm : ℝ)
    (limit offset : ℕ) : List Post :=
  sqlWindow limit offset
    (List.insertionSort (distanceLE lat lng)
      (db.filter (fun p => decide (p.latitude.isSome = true ∧ p.longitude.isSome = true ∧
        withinRadius lat lng radiusKm p))))

/-- The request parameters the search coordinator reads, after HTTP parsing:
empty string marks an absent q or city exactly as in Go, and none marks an
absent numeric parameter (a supplied parameter carries its parsed float64
value; inputs that fail strconv.ParseFloat are rejected before any logic
modelled here runs).  limit and offset are the values getPaginationParams
produced. -/
structure SearchRequest where
  q : String
  city : String
  lat : Option ℝ
  lng : Option ℝ
  radius : Option ℝ
  limit : ℕ
  offset : ℕ

/-- The slice of the DatabaseAdapter interface (internal/adapters/adapter.go)
that the search coordinator consumes.  Storage failures are orthogonal to the
claims settled here, so the methods are total. -/
structure DatabaseAdapter where
  findNearbyPosts : ℝ → ℝ → ℝ → ℕ → ℕ → List Post
  listPostsByCity : String → ℕ → ℕ → List Post
  searchPostsText : String → ℕ → ℕ → List Post

/-- The error channel of the coordinator: the fiber.StatusBadRequest
rejections, the InvalidParameter kind of the spec. -/
inductive SearchError where
  | invalidParameter : String → SearchError
deriving DecidableEq

/-- Embedding of the searchPosts handler (part_005 lines 681 to 794).  The
criteria guard rejects a request with no text query, no city and an incomplete
coordinate pair; otherwise the coordinate path runs when both lat and lng are
supplied (radius defaulting to 10), else the city path when a city is
supplied, else the plain text path.  On the coordinate and city paths a
non-empty text query is applied as an in-process post-filter on the page the
storage call returned. -/
def searchPosts (db : DatabaseAdapter) (req : SearchRequest) :
    Except SearchError (List Post) :=
  if req.q = "" ∧ req.city = "" ∧ (req.lat.isNone = true ∨ req.lng.isNone = true) then
    .error (.invalidParameter
      "At least one search criteria (query, city, or location) is required")
  else
    match req.lat, req.lng with
    | some lat, some lng =>
      let radius := req.radius.getD 10
      let posts := db.findNearbyPosts lat lng radius req.limit req.offset
      .ok (if req.q ≠ "" then filterByContent req.q posts else posts)
    | _, _ =>
      if req.city ≠ "" then
        let posts := db.listPostsByCity req.city req.limit req.offset
        .ok (if req.q ≠ "" then filterByContent req.q posts else posts)
      else
        .ok (db.searchPostsText req.q req.limit req.offset)

/-- The SQLite adapter bundled behind the Storage Adapter Contract, over the
stored posts db. -/
noncomputable def sqliteAdapter (db : List Post) : DatabaseAdapter where
  findNearbyPosts := sqliteFindNearbyPosts db
  listPostsByCity := sqliteListPostsByCity db
  searchPostsText := sqliteSearchPostsText db

/-! Concrete fixtures used by witnesses and counterexamples. -/

/-- A post with no geo data, used by stub adapters. -/
def stubPost : Post :=
  { id := "stub", userId := "u", content := "hello", city := "",
    latitude := none, longitude := none, createdAt := 0 }

/-- A constant storage adapter: every query returns the one stub post.  Used
to instantiate coordinator-level statements that hold for every adapter. -/
def constAdapter : DatabaseAdapter where
  findNearbyPosts := fun _ _ _ _ _ => [stubPost]
  listPostsByCity := fun _ _ _ => [stubPost]
  searchPostsText := fun _ _ _ => [stubPost]

/-- A request with no criterion at all. -/
def emptyRequest : SearchRequest :=
  { q := "", city := "", lat := none, lng := none, radius := none,
    limit := 20, offset := 0 }

/-! Pagination helper lemmas shared by several claims. -/

theorem paginate_length_le {α : Type} (limit offset : ℕ) (l : List α) :
    (paginate limit offset l).length ≤ limit := by
  unfold paginate
  split
  · simp
  · rename_i h
    rw [List.length_drop, List.length_take]
    omega

theorem paginate_sublist {α : Type} (limit offset : ℕ) (l : List α) :
    (paginate limit offset l).Sublist l := by
  unfold paginate
  split
  · exact List.nil_sublist l
  · exact ((List.take (min (offset + limit) l.length) l).drop_sublist offset).trans
      (List.take_sublist _ l)

theorem paginate_zero_of_length_le {α : Type} {limit : ℕ} {l : List α}
    (h : l.length ≤ limit) : paginate limit 0 l = l := by
  unfold paginate
  split
  · rename_i h0
    exact (List.length_eq_zero.mp (Nat.le_antisymm h0 (Nat.zero_le _))).symm
  · rw [Nat.zero_add, Nat.min_eq_right h, List.take_length, List.drop_zero]

theorem sqlWindow_zero_of_length_le {α : Type} {limit : ℕ} {l : List α}
    (h : l.length ≤ limit) : sqlWindow limit 0 l = l := by
  simp [sqlWindow, List.take_of_length_le h]

theorem getPaginationParams_fst_le (limitQ pageQ : Int) :
    (getPaginationParams limitQ pageQ).1 ≤ 100 := by
  unfold getPaginationParams
  dsimp only
  split
  · split <;> omega
  · split <;> omega

/-! Filter evaluation helpers with explicit predicate arguments, so that
rewriting can pin the predicate of a concrete filter application. -/

theorem filter_cons_pos {α : Type} (f : α → Bool) (a : α) (l : List α)
    (h : f a = true) : List.filter f (a :: l) = a :: List.filter f l :=
  List.filter_cons_of_pos h

theorem filter_cons_neg {α : Type} (f : α → Bool) (a : α) (l : List α)
    (h : f a = false) : List.filter f (a :: l) = List.filter f l :=
  List.filter_cons_of_neg (by simp [h])

/-! Evaluation lemmas for the haversine embedding on concrete inputs. -/

theorem atan2_zero_one : atan2 0 1 = 0 := by
  unfold atan2
  rw [if_pos one_pos]
  simp [Real.arctan_zero]

theorem atan2_sqrt_sin {x : ℝ} (h0 : 0 ≤ x) (h1 : x < Real.pi / 2) :
    atan2 (Real.sqrt (Real.sin x * Real.sin x))
      (Real.sqrt (1 - Real.sin x * Real.sin x)) = x := by
  have hpi := Real.pi_pos
  have hxpi : x ≤ Real.pi := by linarith
  have hs : 0 ≤ Real.sin x := Real.sin_nonneg_of_nonneg_of_le_pi h0 hxpi
  have hc : 0 < Real.cos x := Real.cos_pos_of_mem_Ioo ⟨by linarith, h1⟩
  have hpyth : Real.sin x * Real.sin x + Real.cos x * Real.cos x = 1 := by
    have h := Real.sin_sq_add_cos_sq x
    rw [pow_two, pow_two] at h
    exact h
  have h1m : 1 - Real.sin x * Real.sin x = Real.cos x * Real.cos x := by linarith
  rw [Real.sqrt_mul_self hs, h1m, Real.sqrt_mul_self hc.le]
  unfold atan2
  rw [if_pos hc, ← Real.tan_eq_sin_div_cos]
  exact Real.arctan_tan (by linarith) h1

/-- The haversine distance from a point to itself evaluates to zero. -/
theorem haversine_same_point (lat lng : ℝ) : haversineDistance lat lng lat lng = 0 := by
  unfold haversineDistance
  simp only [sub_self, zero_mul, zero_div, Real.sin_zero, mul_zero, zero_add,
    Real.sqrt_zero, sub_zero, Real.sqrt_one, atan2_zero_one]

/-- The haversine distance between two equatorial points reduces to an arc
length once the longitude half-angle is rewritten into the first quadrant. -/
theorem haversine_equator_eq (lng1 lng2 x : ℝ)
    (hsin : Real.sin ((lng2 - lng1) * Real.pi / 180 / 2) *
        Real.sin ((lng2 - lng1) * Real.pi / 180 / 2) = Real.sin x * Real.sin x)
    (h0 : 0 ≤ x) (h1 : x < Real.pi / 2) :
    haversineDistance 0 lng1 0 lng2 = 6371 * (2 * x) := by
  unfold haversineDistance
  simp only [sub_self, zero_mul, zero_div, Real.sin_zero, Real.cos_zero,
    one_mul, zero_add]
  rw [hsin, atan2_sqrt_sin h0 h1]

/-! A two-post dataset at the equator: the newer post a sits about 111 km east
of the origin, the older post b exactly at the origin.  Both lie well inside a
200 km radius around the origin, and creation order is the reverse of distance
order. -/

/-- Newer post, about 111 km from the origin. -/
def postA : Post :=
  { id := "a", userId := "u", content := "post a", city := "",
    latitude := some 0, longitude := some 1, createdAt := 2 }

/-- Older post, exactly at the origin. -/
def postB : Post :=
  { id := "b", userId := "u", content := "post b", city := "",
    latitude := some 0, longitude := some 0, createdAt := 1 }

/-- The stored posts of the two-post dataset, oldest first on disk. -/
def pairDB : List Post := [postA, postB]

theorem dist_postA : haversineDistance 0 0 (latVal postA) (lngVal postA) =
    6371 * (2 * (Real.pi / 360)) := by
  have hpi := Real.pi_pos
  have harg : ((1 : ℝ) - 0) * Real.pi / 180 / 2 = Real.pi / 360 := by ring
  show haversineDistance 0 0 0 1 = 6371 * (2 * (Real.pi / 360))
  exact haversine_equator_eq 0 1 (Real.pi / 360) (by rw [harg]) (by positivity)
    (by linarith)

theorem dist_postB : haversineDistance 0 0 (latVal postB) (lngVal postB) = 0 :=
  haversine_same_point 0 0

theorem within_postA : withinRadius 0 0 200 postA := by
  unfold withinRadius
  rw [dist_postA]
  nlinarith [Real.pi_lt_d2]

theorem within_postB : withinRadius 0 0 200 postB := by
  unfold withinRadius
  rw [dist_postB]
  norm_num

theorem box_postA : inBoundingBox 0 0 200 postA := by
  refine ⟨rfl, rfl, ?_, ?_, ?_, ?_⟩ <;>
    norm_num [latVal, lngVal, postA, latDelta, lngDelta, Real.cos_zero]

theorem box_postB : inBoundingBox 0 0 200 postB := by
  refine ⟨rfl, rfl, ?_, ?_, ?_, ?_⟩ <;>
    norm_num [latVal, lngVal, postB, latDelta, lngDelta, Real.cos_zero]

theorem sort_pair : sortByCreatedAtDesc pairDB = [postA, postB] := rfl

theorem sqliteNearbyFiltered_pair :
    sqliteNearbyFiltered pairDB 0 0 200 = [postA, postB] := by
  unfold sqliteNearbyFiltered filterByDistance
  rw [sort_pair,
    filter_cons_pos (fun p => decide (inBoundingBox 0 0 200 p)) postA [postB]
      (decide_eq_true box_postA),
    filter_cons_pos (fun p => decide (inBoundingBox 0 0 200 p)) postB []
      (decide_eq_true box_postB),
    List.filter_nil,
    filter_cons_pos (fun p => decide (withinRadius 0 0 200 p)) postA [postB]
      (decide_eq_true within_postA),
    filter_cons_pos (fun p => decide (withinRadius 0 0 200 p)) postB []
      (decide_eq_true within_postB),
    List.filter_nil]

theorem sqlite_pair : sqliteFindNearbyPosts pairDB 0 0 200 20 0 = [postA, postB] := by
  unfold sqliteFindNearbyPosts
  rw [sqliteNearbyFiltered_pair]
  exact paginate_zero_of_length_le (by simp)

theorem pg_filter_pair :
    pairDB.filter (fun p => decide (p.latitude.isSome = true ∧
      p.longitude.isSome = true ∧ withinRadius 0 0 200 p)) = [postA, postB] := by
  rw [show pairDB = [postA, postB] from rfl,
    filter_cons_pos (fun p => decide (p.latitude.isSome = true ∧
        p.longitude.isSome = true ∧ withinRadius 0 0 200 p)) postA [postB]
      (decide_eq_true ⟨rfl, rfl, within_postA⟩),
    filter_cons_pos (fun p => decide (p.latitude.isSome = true ∧
        p.longitude.isSome = true ∧ withinRadius 0 0 200 p)) postB []
      (decide_eq_true ⟨rfl, rfl, within_postB⟩),
    List.filter_nil]

theorem pg_sort_pair :
    List.insertionSort (distanceLE 0 0) [postA, postB] = [postB, postA] := by
  have hneg : ¬ distanceLE 0 0 postA postB := by
    unfold distanceLE
    rw [dist_postA, dist_postB, not_le]
    positivity
  simp [List.insertionSort, List.orderedInsert, hneg]

theorem postgres_pair : postgresFindNearbyPosts pairDB 0 0 200 20 0 = [postB, postA] := by
  unfold postgresFindNearbyPosts
  rw [pg_filter_pair, pg_sort_pair]
  exact sqlWindow_zero_of_length_le (by simp)

/-! Claims. -/

/-- C1 (corrected), counterexample: on the same two-post dataset and the same
query (center the origin, radius 200 km, limit 20, offset 0) the naive
strategy returns the identifiers in order a then b (creation time descending)
while the native strategy returns b then a (distance ascending), so the two
strategies do not return the same identifiers in the same order. -/
theorem c1_counterexample :
    (sqliteFindNearbyPosts pairDB 0 0 200 20 0).map Post.id = ["a", "b"] ∧
    (postgresFindNearbyPosts pairDB 0 0 200 20 0).map Post.id = ["b", "a"] ∧
    (["a", "b"] : List String) ≠ ["b", "a"] := by
  refine ⟨?_, ?_, by decide⟩
  · rw [sqlite_pair]; rfl
  · rw [postgres_pair]; rfl

/-- C1 (corrected), amended: the two strategies agree on the returned post set
as a multiset, though not on order, whenever the window covers the whole
filtered set (offset 0, limit at least its size) and the bounding box loses no
within-radius post of the dataset.  The naive page is then a permutation of
the native page. -/
theorem c1_amended_set_equivalence (db : List Post) (lat lng radiusKm : ℝ)
    (limit : ℕ)
    (hbox : ∀ p ∈ db, p.latitude.isSome = true → p.longitude.isSome = true →
      withinRadius lat lng radiusKm p → inBoundingBox lat lng radiusKm p)
    (hlim : (db.filter (fun p => decide (p.latitude.isSome = true ∧
      p.longitude.isSome = true ∧ withinRadius lat lng radiusKm p))).length ≤ limit) :
    (sqliteFindNearbyPosts db lat lng radiusKm limit 0).Perm
      (postgresFindNearbyPosts db lat lng radiusKm limit 0) := by
  have hcongr : ∀ p ∈ db,
      (decide (withinRadius lat lng radiusKm p) &&
        decide (inBoundingBox lat lng radiusKm p)) =
      decide (p.latitude.isSome = true ∧ p.longitude.isSome = true ∧
        withinRadius lat lng radiusKm p) := by
    intro p hp
    by_cases hw : withinRadius lat lng radiusKm p
    · by_cases hb : inBoundingBox lat lng radiusKm p
      · rw [decide_eq_true hw, decide_eq_true hb,
          decide_eq_true (show p.latitude.isSome = true ∧ p.longitude.isSome = true ∧
            withinRadius lat lng radiusKm p from ⟨hb.1, hb.2.1, hw⟩)]
        rfl
      · have hnp : ¬ (p.latitude.isSome = true ∧ p.longitude.isSome = true ∧
            withinRadius lat lng radiusKm p) := fun h => hb (hbox p hp h.1 h.2.1 h.2.2)
        rw [decide_eq_true hw, decide_eq_false hb, decide_eq_false hnp]
        rfl
    · have hnp : ¬ (p.latitude.isSome = true ∧ p.longitude.isSome = true ∧
          withinRadius lat lng radiusKm p) := fun h => hw h.2.2
      rw [decide_eq_false hw, decide_eq_false hnp]
      exact Bool.false_and _
  have hperm1 : (sqliteNearbyFiltered db lat lng radiusKm).Perm
      (db.filter (fun p => decide (p.latitude.isSome = true ∧
        p.longitude.isSome = true ∧ withinRadius lat lng radiusKm p))) := by
    unfold sqliteNearbyFiltered filterByDistance
    rw [List.filter_filter]
    refine (List.Perm.filter _ (List.perm_insertionSort createdAtGE db)).trans ?_
    rw [List.filter_congr hcongr]
  have hperm2 : (List.insertionSort (distanceLE lat lng)
      (db.filter (fun p => decide (p.latitude.isSome = true ∧
        p.longitude.isSome = true ∧ withinRadius lat lng radiusKm p)))).Perm
      (db.filter (fun p => decide (p.latitude.isSome = true ∧
        p.longitude.isSome = true ∧ withinRadius lat lng radiusKm p))) :=
    List.perm_insertionSort _ _
  have hlen1 : (sqliteNearbyFiltered db lat lng radiusKm).length ≤ limit := by
    rw [hperm1.length_eq]
    exact hlim
  have hlen2 : (List.insertionSort (distanceLE lat lng)
      (db.filter (fun p => decide (p.latitude.isSome = true ∧
        p.longitude.isSome = true ∧ withinRadius lat lng radiusKm p)))).length ≤ limit := by
    rw [hperm2.length_eq]
    exact hlim
  unfold sqliteFindNearbyPosts postgresFindNearbyPosts
  rw [paginate_zero_of_length_le hlen1, sqlWindow_zero_of_length_le hlen2]
  exact hperm1.trans hperm2.symm

/-- Witness for the amended C1 on the two-post dataset. -/
theorem c1_amended_set_equivalence_witness :
    (sqliteFindNearbyPosts pairDB 0 0 200 20 0).Perm
      (postgresFindNearbyPosts pairDB 0 0 200 20 0) := by
  refine c1_amended_set_equivalence pairDB 0 0 200 20 ?_ ?_
  · intro p hp h1 h2 h3
    have hp2 : p = postA ∨ p = postB := by simpa [pairDB] using hp
    rcases hp2 with h | h
    · rw [h]; exact box_postA
    · rw [h]; exact box_postB
  · rw [pg_filter_pair]
    simp

/-- C2 (corrected), counterexample: the naive strategy page for the two-post
dataset is a then b, yet the haversine distance of the second entry b is
strictly smaller than that of the first entry a, so the page is not sorted
ascending by distance from the query center — no distance re-sort happens. -/
theorem c2_counterexample :
    sqliteFindNearbyPosts pairDB 0 0 200 20 0 = [postA, postB] ∧
    haversineDistance 0 0 (latVal postB) (lngVal postB) <
      haversineDistance 0 0 (latVal postA) (lngVal postA) := by
  refine ⟨sqlite_pair, ?_⟩
  rw [dist_postA, dist_postB]
  positivity

/-- C2 (corrected), amended: the naive strategy keeps the retained candidate
set in the fetch order, creation time descending, and the returned page is
sorted by that order — not re-sorted by distance. -/
theorem c2_amended_creation_order (db : List Post) (lat lng radiusKm : ℝ)
    (limit offset : ℕ) :
    List.Sorted createdAtGE (sqliteFindNearbyPosts db lat lng radiusKm limit offset) := by
  unfold sqliteFindNearbyPosts sqliteNearbyFiltered filterByDistance
  exact List.Pairwise.sublist
    ((paginate_sublist _ _ _).trans ((List.filter_sublist _).trans (List.filter_sublist _)))
    (List.sorted_insertionSort createdAtGE db)

/-! A two-post dataset for the coordinator paths: both posts sit exactly at
the origin, the newer one without the search text in its content, the older
one with it. -/

/-- Newer post at the origin whose content does not mention the search text. -/
def postP1 : Post :=
  { id := "p1", userId := "u", content := "hello", city := "",
    latitude := some 0, longitude := some 0, createdAt := 2 }

/-- Older post at the origin whose content contains the search text. -/
def postP2 : Post :=
  { id := "p2", userId := "u", content := "xyz", city := "",
    latitude := some 0, longitude := some 0, createdAt := 1 }

/-- The stored posts of the coordinator dataset. -/
def textDB : List Post := [postP1, postP2]

/-- A coordinate search with text query xy, radius 10 and a one-item page. -/
def c3Request : SearchRequest :=
  { q := "xy", city := "", lat := some 0, lng := some 0, radius := some 10,
    limit := 1, offset := 0 }

theorem box10_origin (p : Post) (hlat : p.latitude = some 0)
    (hlng : p.longitude = some 0) : inBoundingBox 0 0 10 p := by
  refine ⟨by rw [hlat]; rfl, by rw [hlng]; rfl, ?_, ?_, ?_, ?_⟩ <;>
    norm_num [latVal, lngVal, hlat, hlng, latDelta, lngDelta, Real.cos_zero]

theorem within10_origin (p : Post) (hlat : p.latitude = some 0)
    (hlng : p.longitude = some 0) : withinRadius 0 0 10 p := by
  unfold withinRadius
  rw [show latVal p = 0 by rw [latVal, hlat]; rfl,
    show lngVal p = 0 by rw [lngVal, hlng]; rfl,
    haversine_same_point]
  norm_num

theorem sqliteNearbyFiltered_textDB :
    sqliteNearbyFiltered textDB 0 0 10 = [postP1, postP2] := by
  unfold sqliteNearbyFiltered filterByDistance
  rw [show sortByCreatedAtDesc textDB = [postP1, postP2] from rfl,
    filter_cons_pos (fun p => decide (inBoundingBox 0 0 10 p)) postP1 [postP2]
      (decide_eq_true (box10_origin postP1 rfl rfl)),
    filter_cons_pos (fun p => decide (inBoundingBox 0 0 10 p)) postP2 []
      (decide_eq_true (box10_origin postP2 rfl rfl)),
    List.filter_nil,
    filter_cons_pos (fun p => decide (withinRadius 0 0 10 p)) postP1 [postP2]
      (decide_eq_true (within10_origin postP1 rfl rfl)),
    filter_cons_pos (fun p => decide (withinRadius 0 0 10 p)) postP2 []
      (decide_eq_true (within10_origin postP2 rfl rfl)),
    List.filter_nil]

theorem sqlite_textDB_page :
    sqliteFindNearbyPosts textDB 0 0 10 1 0 = [postP1] := by
  unfold sqliteFindNearbyPosts
  rw [sqliteNearbyFiltered_textDB]
  simp [paginate]

/-- C3 (corrected), counterexample: for the coordinate path with text query xy
over the coordinator composed with the naive adapter, the returned page is
empty although the one-item window of the fully geo-and-text-filtered set is
the matching post p2.  Pagination ran at the storage layer before the text
post-filter, so the page was silently truncated. -/
theorem c3_counterexample :
    searchPosts (sqliteAdapter textDB) c3Request = .ok [] ∧
    paginate c3Request.limit c3Request.offset
      (filterByContent c3Request.q (sqliteNearbyFiltered textDB 0 0 10)) = [postP2] ∧
    ([] : List Post) ≠ [postP2] := by
  have hm1 : matchesQuery "xy" postP1 = false := by decide
  have hm2 : matchesQuery "xy" postP2 = true := by decide
  refine ⟨?_, ?_, by simp⟩
  · unfold searchPosts
    rw [if_neg (by simp [c3Request])]
    simp only [c3Request]
    rw [show (sqliteAdapter textDB).findNearbyPosts 0 0 ((some (10 : ℝ)).getD 10) 1 0 =
        [postP1] from sqlite_textDB_page]
    simp only [ne_eq, String.reduceEq, not_false_eq_true, if_true, reduceIte]
    unfold filterByContent
    rw [filter_cons_neg (fun p => matchesQuery "xy" p) postP1 [] hm1, List.filter_nil]
  · rw [sqliteNearbyFiltered_textDB]
    rw [show c3Request.q = "xy" from rfl]
    unfold filterByContent
    rw [filter_cons_neg (fun p => matchesQuery "xy" p) postP1 [postP2] hm1,
      filter_cons_pos (fun p => matchesQuery "xy" p) postP2 [] hm2, List.filter_nil]
    exact paginate_zero_of_length_le (by simp [c3Request])

/-- C3 (corrected), amended: pagination is applied at the storage layer, inside
the adapter call that receives limit and offset, and the in-process text
post-filter runs afterwards on that already-windowed page; the returned page
is the text filter of the storage page, which can hold fewer matches than the
window of the fully filtered set. -/
theorem c3_amended_filter_after_window (db : DatabaseAdapter) (req : SearchRequest)
    (hq : req.q ≠ "") :
    (∀ lat lng : ℝ, req.lat = some lat → req.lng = some lng →
      searchPosts db req = .ok (filterByContent req.q
        (db.findNearbyPosts lat lng (req.radius.getD 10) req.limit req.offset))) ∧
    ((req.lat = none ∨ req.lng = none) → req.city ≠ "" →
      searchPosts db req = .ok (filterByContent req.q
        (db.listPostsByCity req.city req.limit req.offset))) := by
  constructor
  · intro lat lng h1 h2
    unfold searchPosts
    rw [if_neg (by simp [hq])]
    rw [h1, h2]
    simp [hq]
  · intro hnone hcity
    unfold searchPosts
    rw [if_neg (by simp [hq])]
    rcases hnone with h | h
    · rw [h]
      simp [hq, hcity]
    · cases hlat : req.lat with
      | none =>
        rw [h]
        simp [hq, hcity]
      | some v =>
        rw [h]
        simp [hq, hcity]

/-- Witness for the amended C3: the coordinate path of the concrete request. -/
theorem c3_amended_filter_after_window_witness :
    searchPosts (sqliteAdapter textDB) c3Request = .ok (filterByContent c3Request.q
      ((sqliteAdapter textDB).findNearbyPosts 0 0 (c3Request.radius.getD 10)
        c3Request.limit c3Request.offset)) :=
  (c3_amended_filter_after_window (sqliteAdapter textDB) c3Request
    (by simp [c3Request])).1 0 0 rfl rfl

/-- A coordinate request with latitude 200 outside [-90, 90] and a negative
radius. -/
def badRangeRequest : SearchRequest :=
  { q := "", city := "", lat := some 200, lng := some 0, radius := some (-5),
    limit := 20, offset := 0 }

/-- C8 (corrected), counterexample: the coordinator accepts a request whose
latitude 200 is outside [-90, 90] and whose radius -5 is negative: the result
is the storage page, not an InvalidParameter rejection. -/
theorem c8_counterexample :
    searchPosts constAdapter badRangeRequest = .ok [stubPost] ∧
    (90 : ℝ) < 200 ∧ (-5 : ℝ) ≤ 0 := by
  refine ⟨?_, by norm_num, by norm_num⟩
  unfold searchPosts
  rw [if_neg (by simp [badRangeRequest])]
  simp [badRangeRequest, constAdapter]

/-- C8 (corrected), amended: the coordinator validates only the presence and
numeric format of the parameters: any parsed latitude and longitude values,
and any supplied radius including zero or negative ones, are passed unchanged
to the geo strategy, while an omitted radius defaults to 10 km.  The result is
the storage page for those raw values, for every adapter. -/
theorem c8_amended_no_range_validation (db : DatabaseAdapter) (req : SearchRequest)
    (lat lng : ℝ) (hlat : req.lat = some lat) (hlng : req.lng = some lng)
    (hq : req.q = "") :
    searchPosts db req = .ok (db.findNearbyPosts lat lng (req.radius.getD 10)
      req.limit req.offset) := by
  unfold searchPosts
  rw [if_neg (by simp [hlat, hlng])]
  rw [hlat, hlng]
  simp [hq]

/-- Witness for the amended C8: the out-of-range request against the constant
adapter; the radius -5 is the value handed to the strategy. -/
theorem c8_amended_no_range_validation_witness :
    searchPosts constAdapter badRangeRequest = .ok (constAdapter.findNearbyPosts
      200 0 (badRangeRequest.radius.getD 10) badRangeRequest.limit
      badRangeRequest.offset) :=
  c8_amended_no_range_validation constAdapter badRangeRequest 200 0 rfl rfl rfl

/-- C5 (confirmed): in the naive strategy exact-distance filter, a candidate is
retained exactly when its computed haversine distance from the query center is
at most radiusKm.  The comparison in the source is the inclusive one
(distance <= radiusKm), so a candidate at exactly the radius is retained, and
any candidate with a strictly greater distance fails the right side and is
excluded; candidate order is preserved by the filter. -/
theorem c5_distance_filter_inclusive (lat lng radiusKm : ℝ) (l : List Post) (p : Post) :
    p ∈ filterByDistance lat lng radiusKm l ↔
      p ∈ l ∧ haversineDistance lat lng (latVal p) (lngVal p) ≤ radiusKm := by
  simp [filterByDistance, List.mem_filter, withinRadius]

/-- C6 (confirmed): the naive strategy pagination over a filtered set of size N
returns the empty page when offset is at least N, otherwise the slice
filtered[offset : min(offset+limit, N)]; the page never holds more than limit
posts, and with the clamped parameters of getPaginationParams never more than
100. -/
theorem c6_pagination_determinism {α : Type} (l : List α) (limit offset : ℕ)
    (_hlim : 0 < limit) :
    (l.length ≤ offset → paginate limit offset l = []) ∧
    (offset < l.length →
      paginate limit offset l = (l.take (min (offset + limit) l.length)).drop offset) ∧
    (paginate limit offset l).length ≤ limit ∧
    (∀ limitQ pageQ : Int,
      (paginate (getPaginationParams limitQ pageQ).1 offset l).length ≤ 100) := by
  refine ⟨fun h => ?_, fun h => ?_, paginate_length_le limit offset l,
    fun limitQ pageQ => ?_⟩
  · simp [paginate, h]
  · simp [paginate, Nat.not_le.mpr h]
  · exact le_trans (paginate_length_le _ offset l) (getPaginationParams_fst_le limitQ pageQ)

/-- Witness for C6 at a concrete filtered set. -/
theorem c6_pagination_determinism_witness :
    0 < 2 ∧ (paginate 2 1 ([0, 1, 2] : List ℕ)).length ≤ 2 :=
  ⟨by decide, (c6_pagination_determinism ([0, 1, 2] : List ℕ) 2 1 (by decide)).2.2.1⟩

/-- C7 (confirmed): a request supplying no text query, no city, and not both
coordinates is rejected with the InvalidParameter message of the source, for
every storage adapter; since the result does not depend on the adapter, no
storage query is consulted for such a request. -/
theorem c7_criteria_guard (db : DatabaseAdapter) (req : SearchRequest)
    (hq : req.q = "") (hc : req.city = "")
    (hl : req.lat.isNone = true ∨ req.lng.isNone = true) :
    searchPosts db req = .error (.invalidParameter
      "At least one search criteria (query, city, or location) is required") := by
  unfold searchPosts
  rw [if_pos ⟨hq, hc, hl⟩]

/-- Witness for C7: the empty request against the constant adapter. -/
theorem c7_criteria_guard_witness :
    searchPosts constAdapter emptyRequest = .error (.invalidParameter
      "At least one search criteria (query, city, or location) is required") :=
  c7_criteria_guard constAdapter emptyRequest rfl rfl (Or.inl rfl)

/-! Lower bounds on the haversine distance, used for the bounding-box claim. -/

theorem atan2_sqrt_eq_arcsin {a : ℝ} (h0 : 0 ≤ a) (h1 : a ≤ 1) :
    atan2 (Real.sqrt a) (Real.sqrt (1 - a)) = Real.arcsin (Real.sqrt a) := by
  rcases eq_or_lt_of_le h1 with heq | hlt
  · rw [heq, sub_self, Real.sqrt_zero, Real.sqrt_one, Real.arcsin_one]
    unfold atan2
    norm_num
  · have hpos : 0 < 1 - a := by linarith
    have hx : 0 < Real.sqrt (1 - a) := Real.sqrt_pos.mpr hpos
    have hmem : Real.sqrt a ∈ Set.Ioo (-1 : ℝ) 1 := by
      constructor
      · linarith [Real.sqrt_nonneg a]
      · have hs := Real.sqrt_lt_sqrt h0 hlt
        rwa [Real.sqrt_one] at hs
    unfold atan2
    rw [if_pos hx, Real.arcsin_eq_arctan hmem, Real.sq_sqrt h0]

/-- Bounds on the haversine intermediate value a for latitudes within a
quarter turn: it lies in [0, 1] and dominates the squared latitude term. -/
theorem hav_core (x1 x2 su : ℝ) (hx1a : -(Real.pi / 2) ≤ x1) (hx1b : x1 ≤ Real.pi / 2)
    (hx2a : -(Real.pi / 2) ≤ x2) (hx2b : x2 ≤ Real.pi / 2)
    (hsua : -1 ≤ su) (hsub : su ≤ 1) :
    0 ≤ Real.sin ((x2 - x1) / 2) * Real.sin ((x2 - x1) / 2) +
      Real.cos x1 * Real.cos x2 * (su * su) ∧
    Real.sin ((x2 - x1) / 2) * Real.sin ((x2 - x1) / 2) +
      Real.cos x1 * Real.cos x2 * (su * su) ≤ 1 ∧
    Real.sin ((x2 - x1) / 2) * Real.sin ((x2 - x1) / 2) ≤
      Real.sin ((x2 - x1) / 2) * Real.sin ((x2 - x1) / 2) +
        Real.cos x1 * Real.cos x2 * (su * su) := by
  have hc1 : 0 ≤ Real.cos x1 :=
    Real.cos_nonneg_of_mem_Icc (Set.mem_Icc.mpr ⟨hx1a, hx1b⟩)
  have hc2 : 0 ≤ Real.cos x2 :=
    Real.cos_nonneg_of_mem_Icc (Set.mem_Icc.mpr ⟨hx2a, hx2b⟩)
  have hccpos : 0 ≤ Real.cos x1 * Real.cos x2 := mul_nonneg hc1 hc2
  have hsusq : 0 ≤ su * su := mul_self_nonneg su
  have hsu1 : su * su ≤ 1 := by nlinarith
  have hterm : 0 ≤ Real.cos x1 * Real.cos x2 * (su * su) := mul_nonneg hccpos hsusq
  refine ⟨?_, ?_, ?_⟩
  · have := mul_self_nonneg (Real.sin ((x2 - x1) / 2))
    linarith
  · have hsq : Real.sin ((x2 - x1) / 2) * Real.sin ((x2 - x1) / 2) =
        1 / 2 - Real.cos (2 * ((x2 - x1) / 2)) / 2 := by
      have h := Real.sin_sq_eq_half_sub ((x2 - x1) / 2)
      rw [pow_two] at h
      linarith
    have h2t : 2 * ((x2 - x1) / 2) = x2 - x1 := by ring
    rw [hsq, h2t]
    have e2 := Real.cos_sub x2 x1
    have e3 := Real.cos_add x2 x1
    have e4 := Real.cos_le_one (x2 + x1)
    nlinarith [mul_le_of_le_one_right hccpos hsu1, e2, e3, e4]
  · linarith

/-- An angle whose squared sine is dominated by a value A (at most 1) is itself
dominated in absolute value by arcsin of the square root of A, provided it
lies within a quarter turn. -/
theorem arcsin_dominates {t A : ℝ} (ht : |t| ≤ Real.pi / 2) (hA1 : A ≤ 1)
    (hts : Real.sin t * Real.sin t ≤ A) : |t| ≤ Real.arcsin (Real.sqrt A) := by
  have hpi := Real.pi_pos
  have htm : |t| ∈ Set.Icc (-(Real.pi / 2)) (Real.pi / 2) :=
    Set.mem_Icc.mpr ⟨by linarith [abs_nonneg t], ht⟩
  have hym : Real.sqrt A ∈ Set.Icc (-1 : ℝ) 1 :=
    Set.mem_Icc.mpr ⟨le_trans (by norm_num) (Real.sqrt_nonneg A),
      Real.sqrt_le_one.mpr hA1⟩
  rw [Real.le_arcsin_iff_sin_le htm hym]
  have hsinabs : Real.sin |t| = |Real.sin t| := by
    rcases abs_cases t with ⟨he, hge⟩ | ⟨he, hneg⟩
    · have htle : t ≤ Real.pi := by
        rw [← he]
        linarith
      rw [he, abs_of_nonneg (Real.sin_nonneg_of_nonneg_of_le_pi hge htle)]
    · have hlow : -Real.pi ≤ t := by
        linarith [neg_abs_le t]
      rw [he, Real.sin_neg,
        abs_of_nonpos (Real.sin_nonpos_of_nonnpos_of_neg_pi_le hneg.le hlow)]
  rw [hsinabs, ← Real.sqrt_mul_self_eq_abs]
  exact Real.sqrt_le_sqrt hts

/-- The haversine distance is nonnegative and dominates the pure
north-south arc 6371 * |plat - lat| * pi / 180, for valid latitudes. -/
theorem haversine_lower_bounds (lat lng plat plng : ℝ)
    (hlat : |lat| ≤ 90) (hplat : |plat| ≤ 90) :
    0 ≤ haversineDistance lat lng plat plng ∧
    6371 * (|plat - lat| * Real.pi / 180) ≤ haversineDistance lat lng plat plng := by
  have hpi := Real.pi_pos
  obtain ⟨hlat1, hlat2⟩ := abs_le.mp hlat
  obtain ⟨hplat1, hplat2⟩ := abs_le.mp hplat
  have hb1a : -(Real.pi / 2) ≤ lat * Real.pi / 180 := by
    nlinarith [mul_nonneg (by linarith : (0:ℝ) ≤ lat + 90) hpi.le]
  have hb1b : lat * Real.pi / 180 ≤ Real.pi / 2 := by
    nlinarith [mul_nonneg (by linarith : (0:ℝ) ≤ 90 - lat) hpi.le]
  have hb2a : -(Real.pi / 2) ≤ plat * Real.pi / 180 := by
    nlinarith [mul_nonneg (by linarith : (0:ℝ) ≤ plat + 90) hpi.le]
  have hb2b : plat * Real.pi / 180 ≤ Real.pi / 2 := by
    nlinarith [mul_nonneg (by linarith : (0:ℝ) ≤ 90 - plat) hpi.le]
  have hcore := hav_core (lat * Real.pi / 180) (plat * Real.pi / 180)
    (Real.sin ((plng - lng) * Real.pi / 180 / 2)) hb1a hb1b hb2a hb2b
    (Real.neg_one_le_sin _) (Real.sin_le_one _)
  have harg : (plat * Real.pi / 180 - lat * Real.pi / 180) / 2 =
      (plat - lat) * Real.pi / 180 / 2 := by ring
  rw [harg] at hcore
  obtain ⟨hA0, hA1, hAsin⟩ := hcore
  have habst : |(plat - lat) * Real.pi / 180 / 2| = |plat - lat| * Real.pi / 360 := by
    rw [abs_div, abs_div, abs_mul, abs_of_pos hpi]
    norm_num
    ring
  have hd180 : |plat - lat| ≤ 180 := by
    rw [abs_le]
    constructor <;> linarith
  have ht2 : |(plat - lat) * Real.pi / 180 / 2| ≤ Real.pi / 2 := by
    rw [habst]
    nlinarith [mul_nonneg (by linarith : (0:ℝ) ≤ 180 - |plat - lat|) hpi.le]
  have hkey := arcsin_dominates ht2 hA1 hAsin
  rw [habst] at hkey
  simp only [haversineDistance]
  rw [atan2_sqrt_eq_arcsin hA0 hA1]
  constructor
  · exact mul_nonneg (by norm_num)
      (mul_nonneg (by norm_num) (Real.arcsin_nonneg.mpr (Real.sqrt_nonneg _)))
  · linarith

/-- A post just west of the antimeridian, at the equator. -/
def post4 : Post :=
  { id := "w", userId := "u", content := "west", city := "",
    latitude := some 0, longitude := some (-179.9), createdAt := 1 }

theorem dist_antimeridian : haversineDistance 0 179.9 (latVal post4) (lngVal post4) =
    6371 * (2 * (Real.pi / 1800)) := by
  have hpi := Real.pi_pos
  show haversineDistance 0 179.9 0 (-179.9) = _
  apply haversine_equator_eq
  · rw [show ((-179.9 : ℝ) - 179.9) * Real.pi / 180 / 2 =
      -(Real.pi - Real.pi / 1800) by ring]
    rw [Real.sin_neg, Real.sin_pi_sub]
    ring
  · positivity
  · linarith

/-- C4 (corrected), counterexample: the post at longitude -179.9 has both
coordinates set and lies about 22 km from the center (0, 179.9) — within a
25 km radius — yet it is outside the bounding box, whose longitude band
around 179.9 does not wrap across the antimeridian.  The prefilter therefore
produces a false negative. -/
theorem c4_counterexample :
    post4.latitude.isSome = true ∧ post4.longitude.isSome = true ∧
    haversineDistance 0 179.9 (latVal post4) (lngVal post4) ≤ 25 ∧
    ¬ inBoundingBox 0 179.9 25 post4 := by
  refine ⟨rfl, rfl, ?_, ?_⟩
  · rw [dist_antimeridian]
    nlinarith [Real.pi_lt_d2]
  · intro h
    have h5 := h.2.2.2.2.1
    have hval : lngVal post4 = -179.9 := rfl
    have hld : lngDelta 0 25 = 30 / 111 := by
      unfold lngDelta
      rw [show (0 : ℝ) * Real.pi / 180 = 0 by ring, Real.cos_zero]
      norm_num
    rw [hval, hld] at h5
    norm_num at h5

/-- C4 (corrected), amended: the latitude half of the bounding box is sound —
every point within haversine distance radiusKm of the center, with both
latitudes in the valid [-90, 90] range, has latitude within latDelta of the
center latitude — but the longitude half is not, as the counterexample at the
antimeridian shows. -/
theorem c4_amended_latitude_soundness (lat lng plat plng radiusKm : ℝ)
    (hlat : |lat| ≤ 90) (hplat : |plat| ≤ 90)
    (hd : haversineDistance lat lng plat plng ≤ radiusKm) :
    lat - latDelta radiusKm ≤ plat ∧ plat ≤ lat + latDelta radiusKm := by
  obtain ⟨h0, hge⟩ := haversine_lower_bounds lat lng plat plng hlat hplat
  have hr0 : 0 ≤ radiusKm := le_trans h0 hd
  have h1 : 6371 * (|plat - lat| * Real.pi / 180) ≤ radiusKm := le_trans hge hd
  have h2 : 3 * |plat - lat| ≤ |plat - lat| * Real.pi := by
    nlinarith [abs_nonneg (plat - lat), Real.pi_gt_three]
  have hkey : 111 * |plat - lat| ≤ 1.2 * radiusKm := by linarith
  unfold latDelta
  constructor
  · have h3 : lat - plat ≤ |plat - lat| := by
      rw [abs_sub_comm]
      exact le_abs_self _
    linarith
  · have h3 : plat - lat ≤ |plat - lat| := le_abs_self _
    linarith

/-- Witness for the amended C4: a post at the center itself, radius 1 km. -/
theorem c4_amended_latitude_soundness_witness :
    0 - latDelta 1 ≤ 0 ∧ (0 : ℝ) ≤ 0 + latDelta 1 :=
  c4_amended_latitude_soundness 0 0 0 0 1 (by norm_num) (by norm_num)
    (by rw [haversine_same_point]; norm_num)

/-- A post at latitude 89.9, longitude 100, near the north pole. -/
def post9 : Post :=
  { id := "n", userId := "u", content := "polar", city := "",
    latitude := some 89.9, longitude := some 100, createdAt := 1 }

theorem cos_899_eq : Real.cos ((89.9 : ℝ) * Real.pi / 180) = Real.sin (Real.pi / 1800) := by
  rw [show (89.9 : ℝ) * Real.pi / 180 = Real.pi / 2 - Real.pi / 1800 by ring]
  exact Real.cos_pi_div_two_sub _

theorem sin_pi_div_1800_gt : (17 / 10000 : ℝ) < Real.sin (Real.pi / 1800) := by
  have hpi_gt := Real.pi_gt_d2
  have hpi_lt := Real.pi_lt_d2
  have h1 : (0 : ℝ) < Real.pi / 1800 := by linarith
  have h2 : Real.pi / 1800 ≤ 1 := by linarith
  have h3 := Real.sin_gt_sub_cube h1 h2
  have hub : Real.pi / 1800 < (7 / 4000 : ℝ) := by linarith
  have hlb : (157 / 90000 : ℝ) < Real.pi / 1800 := by linarith
  have hx2 : (Real.pi / 1800) ^ 2 < (7 / 4000 : ℝ) ^ 2 := by nlinarith [hub, h1]
  have hx3 : (Real.pi / 1800) ^ 3 < (7 / 4000 : ℝ) ^ 3 := by nlinarith [hub, h1, hx2]
  nlinarith [h3, hlb, hx3]

theorem lngDelta_near_pole_pos : 0 < lngDelta 89.9 0.1 := by
  unfold lngDelta
  rw [cos_899_eq]
  have hs := sin_pi_div_1800_gt
  apply div_pos
  · norm_num
  · nlinarith [hs]

theorem lngDelta_near_pole_lt_one : lngDelta 89.9 0.1 < 1 := by
  unfold lngDelta
  rw [cos_899_eq]
  have hs := sin_pi_div_1800_gt
  have hden : (0 : ℝ) < 111 * Real.sin (Real.pi / 1800) := by nlinarith [hs]
  rw [div_lt_one hden]
  nlinarith [hs]

theorem not_inBoundingBox_post9 : ¬ inBoundingBox 89.9 0 0.1 post9 := by
  intro h
  have h6 := h.2.2.2.2.2
  have hv : lngVal post9 = 100 := rfl
  rw [hv] at h6
  linarith [lngDelta_near_pole_lt_one]

/-- C9 (corrected), counterexample: at the near-pole center latitude 89.9 the
longitude delta for a 0.1 km radius is positive yet below one degree, and the
bounding box of the naive strategy rejects a post at that same latitude 100
degrees east of the center.  The near-pole case is thus an ordinary division
by cos(lat) yielding a finite longitude restriction, not a clamp or a
no-longitude-restriction special case. -/
theorem c9_counterexample :
    0 < lngDelta 89.9 0.1 ∧ lngDelta 89.9 0.1 < 1 ∧
    ¬ inBoundingBox 89.9 0 0.1 post9 :=
  ⟨lngDelta_near_pole_pos, lngDelta_near_pole_lt_one, not_inBoundingBox_post9⟩

/-- C9 (corrected), amended: the longitude-delta computation contains no
clamping or special-casing: it is the unconditional division by
111 times cos(lat in radians), so for a fixed positive radius the restriction
width grows strictly as the center latitude climbs toward the pole, instead of
switching to an unrestricted mode. -/
theorem c9_amended_no_pole_clamp (lat1 lat2 r : ℝ) (h0 : 0 ≤ lat1)
    (h12 : lat1 < lat2) (h90 : lat2 < 90) (hr : 0 < r) :
    lngDelta lat1 r < lngDelta lat2 r := by
  have hpi := Real.pi_pos
  have hx1 : 0 ≤ lat1 * Real.pi / 180 := by positivity
  have hx2 : lat2 * Real.pi / 180 < Real.pi / 2 := by nlinarith
  have hlt : lat1 * Real.pi / 180 < lat2 * Real.pi / 180 := by
    have hdiff : 0 < (lat2 - lat1) * Real.pi := by
      have := sub_pos.mpr h12
      positivity
    nlinarith [hdiff]
  have hcos2pos : 0 < Real.cos (lat2 * Real.pi / 180) :=
    Real.cos_pos_of_mem_Ioo ⟨by linarith, hx2⟩
  have hcos1pos : 0 < Real.cos (lat1 * Real.pi / 180) :=
    Real.cos_pos_of_mem_Ioo ⟨by linarith, by linarith⟩
  have hcoslt : Real.cos (lat2 * Real.pi / 180) < Real.cos (lat1 * Real.pi / 180) :=
    Real.cos_lt_cos_of_nonneg_of_le_pi hx1 (by linarith) hlt
  unfold lngDelta
  rw [div_lt_div_iff₀ (by positivity) (by positivity)]
  nlinarith [hcoslt, hr, hcos2pos, hcos1pos]

/-- Witness for the amended C9 at latitudes 0 and 60 with a 1 km radius. -/
theorem c9_amended_no_pole_clamp_witness : lngDelta 0 1 < lngDelta 60 1 :=
  c9_amended_no_pole_clamp 0 60 1 (by norm_num) (by norm_num) (by norm_num)
    (by norm_num)

/-- C10 (confirmed): the in-process text filter of the coordinate and city
paths returns an order-preserving subsequence of the storage page: the output
is a sublist (same relative order), and a post is in the output exactly when
it is in the storage page and its content contains the query as a
case-insensitive substring. -/
theorem c10_text_filter_order_preserving (q : String) (l : List Post) :
    (filterByContent q l).Sublist l ∧
    (∀ p : Post, p ∈ filterByContent q l ↔ p ∈ l ∧ strContainsCI p.content q = true) := by
  refine ⟨List.filter_sublist l, fun p => ?_⟩
  simp [filterByContent, List.mem_filter, matchesQuery]

end Sonet
